import Mathlib

/-!
# Verification of the SimpleIM gateway core

A shallow embedding of the gateway's connection lifecycle, connection
registry, message deduplication, protocol handling and dispatch logic,
translated from the Go sources (`internal/gateway/connection.go`, the
gateway WebSocket handler and dispatcher, and the `model` package),
together with proofs of the spec's testable properties.

Go strings are modelled as lists of characters; Go's byte-wise
lexicographic string order coincides with the character-wise
lexicographic order on UTF-8 text, which is what `goStrLt` implements.
Wall-clock times (`time.Now()`) are passed as explicit integer
parameters.  Mutexes are elided: every operation is modelled as the
atomic state transformation performed under the lock.
-/

/-- Go `string`, modelled as a list of characters. -/
abbrev GoStr := List Char

/-- Go's built-in `<` on strings: lexicographic comparison. -/
def goStrLt : GoStr → GoStr → Bool
  | [], [] => false
  | [], _ :: _ => true
  | _ :: _, [] => false
  | a :: as, b :: bs =>
      if a < b then true
      else if b < a then false
      else goStrLt as bs

/-- Go `strings.HasPrefix p s` (argument order: the prefix first). -/
def goHasPre : GoStr → GoStr → Bool
  | [], _ => true
  | _ :: _, [] => false
  | p :: ps, c :: cs => if p = c then goHasPre ps cs else false

/-- Go `model.GetSingleChatConversationID`: single-chat conversation identity,
the two user IDs in sorted order after the `"single:"` prefix. -/
def GetSingleChatConversationID (userID1 userID2 : GoStr) : GoStr :=
  if goStrLt userID1 userID2 then
    "single:".data ++ userID1 ++ ":".data ++ userID2
  else
    "single:".data ++ userID2 ++ ":".data ++ userID1

/-- Go `model.GetGroupChatConversationID`. -/
def GetGroupChatConversationID (groupID : GoStr) : GoStr :=
  "group:".data ++ groupID

/-! ## Message model (`internal/model`) -/

/-- Go `model.MessageType` constants (Go `int` enum). -/
def MsgText : Int := 0
def MsgSingleChat : Int := 1
def MsgGroupChat : Int := 2
def MsgSystem : Int := 3
def MsgAck : Int := 30
def MsgReadReceipt : Int := 31
def MsgTyping : Int := 33
def MsgHeartbeat : Int := 99
def MsgKickout : Int := 100

/-- The `Content interface{}` payloads of `model.Message` that the gateway
core constructs or inspects.  Inbound JSON payloads carrying a
`conversation_id` field (pointer or map form in Go) are both modelled by
`readReceipt`; payloads the gateway never looks into are `other`. -/
inductive MsgContent where
  | nothing
  | kickout (reason deviceID : GoStr)
  | ack (messageID : GoStr) (status : Int)
  | heartbeat (timestamp : Int)
  | readReceipt (conversationID : GoStr) (lastReadSeq : Int)
  | errorInfo (code message : GoStr)
  | other
  deriving Repr, DecidableEq

/-- Go `model.Message` (the fields the gateway core reads or writes;
`Type` is renamed `type` because `Type` is reserved in Lean). -/
structure Message where
  MessageID : GoStr := []
  type : Int := 0
  From : GoStr := []
  To : GoStr := []
  Content : MsgContent := .nothing
  Timestamp : Int := 0
  ConversationID : GoStr := []
  Seq : Int := 0
  deriving Repr, DecidableEq

/-- Go `model.NewAckMessage` (its `time.Now().UnixMilli()` is the `now` argument). -/
def NewAckMessage (messageID : GoStr) (status : Int) (now : Int) : Message :=
  { type := MsgAck, Content := .ack messageID status, Timestamp := now }

/-- Go `model.NewHeartbeatMessage`. -/
def NewHeartbeatMessage (now : Int) : Message :=
  { type := MsgHeartbeat, Content := .heartbeat now, Timestamp := now }

/-! ## Connection (`internal/gateway/connection.go`) -/

/-- Go `gateway.ConnectionState`. -/
inductive ConnectionState where
  | connecting
  | connected
  | closing
  | closed
  deriving Repr, DecidableEq

/-- Go `gateway.ConnectionError` values relevant to the core. -/
structure ConnectionError where
  Code : Int
  ErrMessage : GoStr
  deriving Repr, DecidableEq

def ErrConnectionClosed : ConnectionError := ⟨1001, "connection closed".data⟩
def ErrSendBufferFull : ConnectionError := ⟨1002, "send buffer full".data⟩

/-- Go `gateway.Connection`.  The buffered `Send chan []byte` is modelled as the
list of queued messages (JSON marshalling of a payload is elided: queue
items are the `Message` values themselves) together with its capacity
`SendCap` (`SendChannelSize`).  `sendClosed`/`transportClosed` record the
`close(c.Send)` and `c.Conn.Close()` teardown effects. -/
structure Connection where
  ID : GoStr
  UserID : GoStr
  NodeID : GoStr := []
  Platform : GoStr := []
  DeviceID : GoStr := []
  State : ConnectionState := .connected
  LastActive : Int := 0
  SendQueue : List Message := []
  SendCap : Nat := 256
  closed : Bool := false
  sendClosed : Bool := false
  transportClosed : Bool := false
  deriving Repr, DecidableEq

/-- Go `Connection.Close`.  The first caller flips `closed`, moves the state to
`Closed`, closes the send channel and the transport, and returns the
transport's close result (`transportErr`, abstract here); later callers
return `nil` without touching the connection. -/
def Connection.close (c : Connection) (transportErr : Option ConnectionError) :
    Connection × Option ConnectionError :=
  if c.closed then (c, none)
  else
    ({ c with closed := true, State := .closed, sendClosed := true, transportClosed := true },
      transportErr)

/-- Go `Connection.SendMessage`: non-blocking enqueue.  The `select`/`default`
on the buffered channel succeeds exactly when the queue is below capacity. -/
def Connection.sendMessage (c : Connection) (m : Message) :
    Connection × Option ConnectionError :=
  if c.closed then (c, some ErrConnectionClosed)
  else if c.SendQueue.length < c.SendCap then
    ({ c with SendQueue := c.SendQueue ++ [m] }, none)
  else (c, some ErrSendBufferFull)

/-- Go `Connection.UpdateLastActive` (its `time.Now()` is the `now` argument). -/
def Connection.updateLastActive (c : Connection) (now : Int) : Connection :=
  { c with LastActive := now }

/-- Go `Connection.SetPlatform`. -/
def Connection.setPlatform (c : Connection) (p : GoStr) : Connection :=
  { c with Platform := p }

/-- Go `Connection.SetDeviceID`. -/
def Connection.setDeviceID (c : Connection) (d : GoStr) : Connection :=
  { c with DeviceID := d }

/-! ## ConnectionManager (`internal/gateway/connection.go`) -/

/-- The registry events `ConnectionManager.Register` performs, in source
order, used to state the ordering required by the spec (kick the old
connection, close it, remove it by ID, then store the new one). -/
inductive RegEvent where
  | sendKick (connID : GoStr)
  | closeOld (connID : GoStr)
  | deleteByID (connID : GoStr)
  | storeConn (userID connID : GoStr)
  deriving Repr, DecidableEq

/-- The structured "superseded" (kickout) notice that `Register` sends to
an evicted connection: `model.MsgKickout` with the login reason and the
new connection's device ID. -/
def kickoutMessage (newDeviceID : GoStr) (now : Int) : Message :=
  { type := MsgKickout,
    Content := .kickout "您的账号在其他设备登录".data newDeviceID,
    Timestamp := now }

/-- Go `gateway.ConnectionManager`: the two `sync.Map`s, keyed by user ID and
by connection ID (the statistics counters, callbacks and config are not
needed by any claim and are omitted). -/
structure ManagerState where
  connections : GoStr → Option Connection
  connByID : GoStr → Option Connection

/-- The empty registry produced by `NewConnectionManager`. -/
def ManagerState.empty : ManagerState :=
  { connections := fun _ => none, connByID := fun _ => none }

/-- Go `ConnectionManager.Register`.  `LoadAndDelete` on the per-user slot: if
an old connection exists for `conn.UserID`, send it the kickout notice
(`SendJSON`, result ignored), close it (result ignored), delete it from
the by-ID map, then store the new connection in both maps.  Returns the
new state, the evicted connection's final state (if any), and the trace
of registry events in execution order. -/
def ManagerState.register (m : ManagerState) (conn : Connection) (now : Int) :
    ManagerState × Option Connection × List RegEvent :=
  match m.connections conn.UserID with
  | some oldConn =>
      let afterLoad : GoStr → Option Connection :=
        fun k => if k = conn.UserID then none else m.connections k
      let old1 := (oldConn.sendMessage (kickoutMessage conn.DeviceID now)).1
      let old2 := (old1.close none).1
      let byID1 : GoStr → Option Connection :=
        fun k => if k = oldConn.ID then none else m.connByID k
      ({ connections := fun k => if k = conn.UserID then some conn else afterLoad k,
         connByID := fun k => if k = conn.ID then some conn else byID1 k },
       some old2,
       [.sendKick oldConn.ID, .closeOld oldConn.ID, .deleteByID oldConn.ID,
        .storeConn conn.UserID conn.ID])
  | none =>
      ({ connections := fun k => if k = conn.UserID then some conn else m.connections k,
         connByID := fun k => if k = conn.ID then some conn else m.connByID k },
       none,
       [.storeConn conn.UserID conn.ID])

/-- Go `ConnectionManager.Unregister`: delete the per-user entry only when the
stored connection's ID still matches, then delete the by-ID entry. -/
def ManagerState.unregister (m : ManagerState) (conn : Connection) : ManagerState :=
  let conns :=
    match m.connections conn.UserID with
    | some current =>
        if current.ID = conn.ID then
          fun k => if k = conn.UserID then none else m.connections k
        else m.connections
    | none => m.connections
  { connections := conns,
    connByID := fun k => if k = conn.ID then none else m.connByID k }

/-! ## MessageDeduper (gateway WebSocket handler) -/

/-- Association-list view of the Go `map[string]int64` dedup cache.
Looking a key up. -/
def lookupCache : List (GoStr × Int) → GoStr → Option Int
  | [], _ => none
  | (k, v) :: rest, key => if k = key then some v else lookupCache rest key

/-- Go `delete(cache, key)` on the assoc-list view (keys are unique). -/
def eraseKey : List (GoStr × Int) → GoStr → List (GoStr × Int)
  | [], _ => []
  | (k, v) :: rest, key => if k = key then rest else (k, v) :: eraseKey rest key

/-- The linear scan of `evictOldest`: fold the loop state
`(oldest, oldestKey)` over the cache; an entry is selected only when its
first-seen time is *strictly* below the current `oldest`. -/
def scanOldest : List (GoStr × Int) → Int → GoStr → Int × GoStr
  | [], oldest, key => (oldest, key)
  | (k, v) :: rest, oldest, key =>
      if v < oldest then scanOldest rest v k else scanOldest rest oldest key

/-- Go `gateway.MessageDeduper`: cache plus configured capacity. -/
structure MessageDeduper where
  cache : List (GoStr × Int)
  size : Nat
  deriving Repr, DecidableEq

/-- Go `MessageDeduper.evictOldest`: `oldest` starts at `time.Now().Unix()`
(the `now` argument) and `oldestKey` at `""`; the entry recorded in
`oldestKey` is deleted only when one was found (`oldestKey != ""`). -/
def MessageDeduper.evictOldest (d : MessageDeduper) (now : Int) : MessageDeduper :=
  let scanned := scanOldest d.cache now []
  if scanned.2 = ([] : GoStr) then d
  else { d with cache := eraseKey d.cache scanned.2 }

/-- Go `MessageDeduper.IsDuplicate`: report a cached ID as a duplicate without
touching the cache; otherwise evict when at capacity, then record the ID
with its first-seen time. -/
def MessageDeduper.isDuplicate (d : MessageDeduper) (messageID : GoStr) (now : Int) :
    MessageDeduper × Bool :=
  match lookupCache d.cache messageID with
  | some _ => (d, true)
  | none =>
      let d1 := if d.size ≤ d.cache.length then d.evictOldest now else d
      ({ d1 with cache := d1.cache ++ [(messageID, now)] }, false)

/-! ## Protocol handler (`WebSocketHandler`) -/

/-- The collaborator calls a `WebSocketHandler` message handler performs,
in execution order. -/
inductive Effect where
  | saveMessage (m : Message)
  | sendToConn (m : Message)
  | dispatchToUsers (targets : List GoStr) (m : Message)
  | dispatchToConversation (convID : GoStr) (m : Message) (excludeUserID : GoStr)
  deriving Repr, DecidableEq

/-- The message payload an effect carries downstream (persistence or
dispatch); `sendToConn` writes back to the handler's own connection and
is not a downstream delivery. -/
def Effect.payload : Effect → Option Message
  | .saveMessage m => some m
  | .sendToConn _ => none
  | .dispatchToUsers _ m => some m
  | .dispatchToConversation _ m _ => some m

/-- Is the effect a persistence call (`messageSaver.SaveMessage`)? -/
def Effect.isPersist : Effect → Bool
  | .saveMessage _ => true
  | _ => false

/-- Is the effect a downstream dispatch (`dispatcher.DispatchToUsers` or
`dispatcher.DispatchToConversation`)? -/
def Effect.isDispatch : Effect → Bool
  | .dispatchToUsers _ _ => true
  | .dispatchToConversation _ _ _ => true
  | _ => false

/-- Count of persistence calls in an effect trace. -/
def countPersist (l : List Effect) : Nat := (l.filter Effect.isPersist).length

/-- Count of downstream dispatch calls in an effect trace. -/
def countDispatch (l : List Effect) : Nat := (l.filter Effect.isDispatch).length

/-- Go `WebSocketHandler.handleSingleChat`: stamp the conversation ID, persist
when a saver is configured (failure only logged), ack the sender, dispatch
to the recipient. -/
def handleSingleChat (hasSaver : Bool) (msg : Message) (now : Int) : List Effect :=
  let msg1 := { msg with ConversationID := GetSingleChatConversationID msg.From msg.To }
  (if hasSaver then [Effect.saveMessage msg1] else []) ++
    [Effect.sendToConn (NewAckMessage msg1.MessageID 0 now),
     Effect.dispatchToUsers [msg1.To] msg1]

/-- Go `WebSocketHandler.handleGroupChat`. -/
def handleGroupChat (hasSaver : Bool) (msg : Message) (now : Int) : List Effect :=
  let msg1 := { msg with ConversationID := GetGroupChatConversationID msg.To }
  (if hasSaver then [Effect.saveMessage msg1] else []) ++
    [Effect.sendToConn (NewAckMessage msg1.MessageID 0 now),
     Effect.dispatchToConversation msg1.ConversationID msg1 msg1.From]

/-- The reverse scan of `handleReadReceipt`'s `for i := len(parts)-1 ...`
loop: walking a reversed string, split at the first underscore met (the
*last* underscore of the original). -/
def splitLastUnderscoreAux : GoStr → GoStr → Option (GoStr × GoStr)
  | [], _ => none
  | c :: rest, acc =>
      if c = '_' then some (rest.reverse, acc) else splitLastUnderscoreAux rest (c :: acc)

/-- Split a string at its last underscore, if any. -/
def splitLastUnderscore (s : GoStr) : Option (GoStr × GoStr) :=
  splitLastUnderscoreAux s.reverse []

/-- Go `WebSocketHandler.handleReadReceipt`: only conversation IDs with the
`"single_"` prefix are handled; the ID after the prefix is split at its
last underscore into `user1_user2`, the peer is `user1` unless that is
the reading connection's own user, and the receipt is forwarded to the
peer.  Payloads without a readable `conversation_id` are ignored. -/
def handleReadReceipt (connUserID : GoStr) (msg : Message) : List Effect :=
  match msg.Content with
  | .readReceipt convID _ =>
      if goHasPre "single_".data convID then
        match splitLastUnderscore (convID.drop 7) with
        | some (user1, user2) =>
            [Effect.dispatchToUsers [if user1 = connUserID then user2 else user1] msg]
        | none => []
      else []
  | _ => []

/-- Go `WebSocketHandler.handleTyping`. -/
def handleTyping (msg : Message) : List Effect :=
  if msg.To ≠ [] then [Effect.dispatchToUsers [msg.To] msg] else []

/-- Go `WebSocketHandler.handleHeartbeat`: reply with a heartbeat. -/
def handleHeartbeat (now : Int) : List Effect :=
  [Effect.sendToConn (NewHeartbeatMessage now)]

/-- The `switch msg.Type` of `WebSocketHandler.handleMessage`
(`handleAck` only logs; the custom `onMessage` hook is nil in the
deployed handler, so unknown types are no-ops). -/
def dispatchByType (hasSaver : Bool) (connUserID : GoStr) (msg2 : Message)
    (now : Int) : List Effect :=
  if msg2.type = MsgHeartbeat then handleHeartbeat now
  else if msg2.type = MsgSingleChat ∨ msg2.type = MsgText then
    handleSingleChat hasSaver msg2 now
  else if msg2.type = MsgGroupChat then handleGroupChat hasSaver msg2 now
  else if msg2.type = MsgAck then []
  else if msg2.type = MsgReadReceipt then handleReadReceipt connUserID msg2
  else if msg2.type = MsgTyping then handleTyping msg2
  else []

/-- Go `WebSocketHandler.handleMessage`: overwrite the frame's sender with the
connection's authenticated user ID and its timestamp with the server
clock, generate a message ID when absent (`genID` stands for
`util.GenerateMessageID()`), run the resulting ID through the deduper and
drop the frame silently when it was seen, else branch on the message
type.  Returns the updated deduper and the effect trace. -/
def handleMessage (hasSaver : Bool) (connUserID : GoStr) (d : MessageDeduper)
    (msg : Message) (now : Int) (genID : GoStr) : MessageDeduper × List Effect :=
  let msg1 := { msg with From := connUserID, Timestamp := now }
  let msg2 := if msg1.MessageID = [] then { msg1 with MessageID := genID } else msg1
  let dedup := d.isDuplicate msg2.MessageID now
  (dedup.1, if dedup.2 then [] else dispatchByType hasSaver connUserID msg2 now)

/-- The message ID under which `handleMessage` runs a frame through the
deduper and downstream handlers. -/
def effectiveMessageID (msg : Message) (genID : GoStr) : GoStr :=
  if msg.MessageID = [] then genID else msg.MessageID

/-! ## MessageDispatcher (`messageDispatcherImpl`) -/

/-- The delivery actions of one `DispatchToUsers` fan-out, per target. -/
inductive DispatchEffect where
  | localPush (userID : GoStr)
  | publishToNode (nodeID userID : GoStr)
  | saveOffline (userID : GoStr)
  deriving Repr, DecidableEq

/-- Go `messageDispatcherImpl` state: this node's ID, the local routing table
(`localConns`; the stored value records whether `SendData` on that
connection currently succeeds), the shared online-status store
(`online:{userID}` keys; `none` models `redis.Nil`), and whether an
offline-persistence collaborator was injected. -/
structure DispatcherState where
  nodeID : GoStr
  localConns : GoStr → Option Bool
  onlineStore : GoStr → Option GoStr
  hasOfflineSaver : Bool

/-- Go `fmt.Sscanf(val, "%[^:]", &nodeID)`: the prefix of the stored value up
to the first colon. -/
def parseNodeID (v : GoStr) : GoStr := v.takeWhile (fun c => c ≠ ':')

/-- Go `messageDispatcherImpl.GetUserNode`: a missing online-status record
(`redis.Nil`) yields `("", nil)` — the user is simply not online; a
present record yields its node-ID prefix.  (Transport errors of the
shared store are outside the model.) -/
def DispatcherState.getUserNode (d : DispatcherState) (userID : GoStr) :
    GoStr × Option ConnectionError :=
  match d.onlineStore userID with
  | none => ([], none)
  | some v => (parseNodeID v, none)

/-- Go `messageDispatcherImpl.pushToLocalUser`: false when the user has no
local connection or its `SendData` fails. -/
def DispatcherState.pushToLocalUser (d : DispatcherState) (userID : GoStr) : Bool :=
  match d.localConns userID with
  | none => false
  | some sendOk => sendOk

/-- The per-target body of `DispatchToUsers`: local push, else resolve the
owning node, publish remotely when it is a different node, else fall back
to offline persistence (when a saver is configured). -/
def dispatchOne (d : DispatcherState) (userID : GoStr) : List DispatchEffect :=
  if d.pushToLocalUser userID then [.localPush userID]
  else
    let nodeID := (d.getUserNode userID).1
    if nodeID ≠ [] ∧ nodeID ≠ d.nodeID then [.publishToNode nodeID userID]
    else if d.hasOfflineSaver then [.saveOffline userID] else []

/-- Go `messageDispatcherImpl.DispatchToUsers`: early return on an empty
target list, otherwise run every target independently (the goroutine
fan-out is modelled as the concatenation of the per-target actions;
per-target failures are collected, never short-circuiting). -/
def DispatchToUsers (d : DispatcherState) (userIDs : List GoStr) : List DispatchEffect :=
  if userIDs = [] then [] else userIDs.flatMap (dispatchOne d)

/-! ## Concrete states used by the witnesses -/

/-- A freshly accepted, open connection. -/
def demoOpenConn : Connection :=
  { ID := "conn-1".data, UserID := "alice".data, SendCap := 2 }

/-- A second connection for the same user (a re-login from another device). -/
def demoOpenConn2 : Connection :=
  { ID := "conn-2".data, UserID := "alice".data, DeviceID := "phone".data, SendCap := 2 }

/-- A connection whose `Close` has already run. -/
def demoClosedConn : Connection :=
  { ID := "conn-3".data, UserID := "bob".data, State := .closed,
    closed := true, sendClosed := true, transportClosed := true }

/-- A chat message used as a generic send payload. -/
def demoMsg : Message :=
  { MessageID := "msg-1".data, type := MsgSingleChat, To := "bob".data }

/-- An open connection whose bounded outbound queue is at capacity. -/
def demoFullConn : Connection :=
  { ID := "conn-4".data, UserID := "carol".data, SendQueue := [demoMsg], SendCap := 1 }

/-- A dispatcher with no local connections and an empty online-status store. -/
def demoDispatcher : DispatcherState :=
  { nodeID := "node1".data, localConns := fun _ => none,
    onlineStore := fun _ => none, hasOfflineSaver := true }

/-- A capacity-1 deduper holding one entry first seen at time 5. -/
def c8Deduper : MessageDeduper := { cache := [("a".data, 5)], size := 1 }

/-- A fresh deduper with the deployed capacity (`NewMessageDeduper(10000)`). -/
def demoDeduper : MessageDeduper := { cache := [], size := 10000 }

/-- The message `demoMsg` as the handler normalizes and persists it for
sender `alice` at server time 10. -/
def demoNormalizedMsg : Message :=
  { MessageID := "msg-1".data, type := MsgSingleChat, From := "alice".data,
    To := "bob".data, Timestamp := 10, ConversationID := "single:alice:bob".data }

/-- A read receipt whose conversation ID came from the
`GetSingleChatConversationID` encoder. -/
def demoEncoderReceipt : Message :=
  { MessageID := "rr-1".data, type := MsgReadReceipt, From := "a".data,
    Content := .readReceipt (GetSingleChatConversationID "a".data "b".data) 3 }

/-- A read receipt in the underscore convention the handler parses. -/
def demoUnderscoreReceipt : Message :=
  { MessageID := "rr-2".data, type := MsgReadReceipt, From := "a".data,
    Content := .readReceipt "single_a_b".data 3 }

/-! ## Theorems -/

theorem goStrLt_asymm : ∀ a b : GoStr, goStrLt a b = true → goStrLt b a = false := by
  intro a
  induction a with
  | nil => intro b h; cases b <;> simp_all [goStrLt]
  | cons x xs ih =>
      intro b h
      cases b with
      | nil => simp [goStrLt] at h
      | cons y ys =>
          simp only [goStrLt] at h ⊢
          rcases lt_trichotomy x y with hxy | hxy | hxy
          · simp [hxy, lt_asymm hxy]
          · subst hxy
            simp only [lt_irrefl, if_false] at h ⊢
            exact ih ys h
          · simp [hxy, lt_asymm hxy] at h

theorem goStrLt_eq_of_not_lt :
    ∀ a b : GoStr, goStrLt a b = false → goStrLt b a = false → a = b := by
  intro a
  induction a with
  | nil => intro b h _; cases b <;> simp_all [goStrLt]
  | cons x xs ih =>
      intro b hab hba
      cases b with
      | nil => simp [goStrLt] at hba
      | cons y ys =>
          simp only [goStrLt] at hab hba
          rcases lt_trichotomy x y with hxy | hxy | hxy
          · simp [hxy] at hab
          · subst hxy
            simp only [lt_irrefl, if_false] at hab hba
            exact congrArg (x :: ·) (ih ys hab hba)
          · simp [hxy, lt_asymm hxy] at hba

/-- C9: the single-chat conversation-identity function is symmetric:
`encode(A,B) == encode(B,A)` for every pair of user IDs. -/
theorem singleChatConversationID_symm (a b : GoStr) :
    GetSingleChatConversationID a b = GetSingleChatConversationID b a := by
  unfold GetSingleChatConversationID
  cases hab : goStrLt a b with
  | true => simp [hab, goStrLt_asymm a b hab]
  | false =>
      cases hba : goStrLt b a with
      | true => simp [hab, hba]
      | false => simp [hab, hba, goStrLt_eq_of_not_lt a b hab hba]

/-- Auxiliary: after any `Close`, the connection is closed. -/
theorem closed_after_close (c : Connection) (e : Option ConnectionError) :
    ((c.close e).1).closed = true := by
  unfold Connection.close
  split <;> simp_all

/-- C7: `Close` is idempotent: a first call on an open connection performs
the single transition to the Closed state and the resource teardown
(transport close, send-queue close) and returns the transport's result;
every later call on the resulting connection performs no state change and
returns no error. -/
theorem close_idempotent (c : Connection) (e : Option ConnectionError)
    (h : c.closed = false) :
    (c.close e).1.closed = true ∧
    (c.close e).1.State = ConnectionState.closed ∧
    (c.close e).1.sendClosed = true ∧
    (c.close e).1.transportClosed = true ∧
    (c.close e).2 = e ∧
    ∀ e2 : Option ConnectionError, (c.close e).1.close e2 = ((c.close e).1, none) := by
  simp [Connection.close, h]

/-- Witness for C7 at a concrete open connection. -/
theorem close_idempotent_witness :
    demoOpenConn.closed = false ∧
    ((demoOpenConn.close none).1.closed = true ∧
     (demoOpenConn.close none).1.State = ConnectionState.closed ∧
     (demoOpenConn.close none).1.sendClosed = true ∧
     (demoOpenConn.close none).1.transportClosed = true ∧
     (demoOpenConn.close none).2 = none ∧
     ∀ e2 : Option ConnectionError,
       (demoOpenConn.close none).1.close e2 = ((demoOpenConn.close none).1, none)) :=
  ⟨rfl, close_idempotent demoOpenConn none rfl⟩

/-- C6: `SendMessage` on a closed connection fails with the
`ConnectionClosed` error; on an open connection with a full bounded queue
it fails with `SendBufferFull` leaving the queue untouched; in every case
it returns immediately with the queue either unchanged or extended by the
new item (it never removes or overwrites queued items, and the model is a
total function — no blocking). -/
theorem sendMessage_error_cases (c : Connection) (m : Message) :
    (c.closed = true → c.sendMessage m = (c, some ErrConnectionClosed)) ∧
    (c.closed = false → c.SendCap ≤ c.SendQueue.length →
       c.sendMessage m = (c, some ErrSendBufferFull)) ∧
    ((c.sendMessage m).1.SendQueue = c.SendQueue ∨
     (c.sendMessage m).1.SendQueue = c.SendQueue ++ [m]) := by
  refine ⟨fun h => by simp [Connection.sendMessage, h],
          fun h hfull => by simp [Connection.sendMessage, h, Nat.not_lt.mpr hfull],
          ?_⟩
  unfold Connection.sendMessage
  split
  · exact Or.inl rfl
  · split
    · exact Or.inr rfl
    · exact Or.inl rfl

/-- Witness for C6: a concrete closed connection and a concrete open
connection with a full queue. -/
theorem sendMessage_error_cases_witness :
    demoClosedConn.closed = true ∧
    demoClosedConn.sendMessage demoMsg = (demoClosedConn, some ErrConnectionClosed) ∧
    demoFullConn.closed = false ∧
    demoFullConn.SendCap ≤ demoFullConn.SendQueue.length ∧
    demoFullConn.sendMessage demoMsg = (demoFullConn, some ErrSendBufferFull) :=
  ⟨rfl, (sendMessage_error_cases demoClosedConn demoMsg).1 rfl,
   rfl, by decide,
   (sendMessage_error_cases demoFullConn demoMsg).2.1 rfl (by decide)⟩

/-- C4 counterexample: on an already-closed connection an
activity-timestamp update and a tag update still mutate the connection,
contradicting the claim that they leave it unchanged. -/
theorem closed_conn_mutation_counterexample :
    demoClosedConn.closed = true ∧
    demoClosedConn.updateLastActive 5 ≠ demoClosedConn ∧
    demoClosedConn.setPlatform "ios".data ≠ demoClosedConn := by
  refine ⟨rfl, ?_, ?_⟩ <;> decide

/-- C4 as amended: once a connection is Closed, `SendMessage` fails with
the `ConnectionClosed` error and never writes to the outbound queue, and
`Close` performs no further transition; but `UpdateLastActive`,
`SetPlatform` and `SetDeviceID` still mutate exactly their respective
fields. -/
theorem closed_conn_behavior (c : Connection) (m : Message) (t : Int)
    (p dv : GoStr) (e : Option ConnectionError) (h : c.closed = true) :
    c.sendMessage m = (c, some ErrConnectionClosed) ∧
    (c.sendMessage m).1.SendQueue = c.SendQueue ∧
    c.close e = (c, none) ∧
    c.updateLastActive t = { c with LastActive := t } ∧
    c.setPlatform p = { c with Platform := p } ∧
    c.setDeviceID dv = { c with DeviceID := dv } := by
  simp [Connection.sendMessage, Connection.close, h, Connection.updateLastActive,
    Connection.setPlatform, Connection.setDeviceID]

/-- Witness for the amended C4 at a concrete closed connection. -/
theorem closed_conn_behavior_witness :
    demoClosedConn.closed = true ∧
    (demoClosedConn.sendMessage demoMsg = (demoClosedConn, some ErrConnectionClosed) ∧
     (demoClosedConn.sendMessage demoMsg).1.SendQueue = demoClosedConn.SendQueue ∧
     demoClosedConn.close none = (demoClosedConn, none) ∧
     demoClosedConn.updateLastActive 7 = { demoClosedConn with LastActive := 7 } ∧
     demoClosedConn.setPlatform "web".data = { demoClosedConn with Platform := "web".data } ∧
     demoClosedConn.setDeviceID "dev".data = { demoClosedConn with DeviceID := "dev".data }) :=
  ⟨rfl, closed_conn_behavior demoClosedConn demoMsg 7 "web".data "dev".data none rfl⟩

/-- Auxiliary: `Register` always leaves the registering connection stored
under its user ID, whether or not an old connection was evicted. -/
theorem register_lookup_self (m : ManagerState) (conn : Connection) (now : Int) :
    (m.register conn now).1.connections conn.UserID = some conn := by
  unfold ManagerState.register
  cases h0 : m.connections conn.UserID <;> simp

/-- Auxiliary: the registry events of `Register` when an old connection
occupied the user slot: kick, close, delete-by-ID, then store. -/
theorem register_found_trace (m : ManagerState) (conn old : Connection) (now : Int)
    (h : m.connections conn.UserID = some old) :
    (m.register conn now).2.2 =
      [RegEvent.sendKick old.ID, RegEvent.closeOld old.ID, RegEvent.deleteByID old.ID,
       RegEvent.storeConn conn.UserID conn.ID] := by
  unfold ManagerState.register
  rw [h]

/-- Auxiliary: the evicted connection returned by `Register` is the old
connection after the kickout send and the close. -/
theorem register_found_evicted (m : ManagerState) (conn old : Connection) (now : Int)
    (h : m.connections conn.UserID = some old) :
    (m.register conn now).2.1 =
      some (((old.sendMessage (kickoutMessage conn.DeviceID now)).1.close none).1) := by
  unfold ManagerState.register
  rw [h]

/-- Auxiliary: the by-ID registry after an eviction: the new connection is
stored, the old connection's ID is removed, everything else untouched. -/
theorem register_found_byID (m : ManagerState) (conn old : Connection) (now : Int)
    (h : m.connections conn.UserID = some old) (k : GoStr) :
    (m.register conn now).1.connByID k =
      if k = conn.ID then some conn
      else if k = old.ID then none else m.connByID k := by
  unfold ManagerState.register
  rw [h]

/-- C1: registering two connections for the same user sequentially leaves
exactly the second one stored for that user (in both registries), the
first one is evicted: it receives the structured kickout (superseded)
notice (enqueued onto its outbound queue whenever it is still open with
queue room), is closed, and is removed from the by-ID registry, with the
events ordered kick → close → remove → store. -/
theorem register_supersedes_old (m : ManagerState) (c1 c2 : Connection)
    (t1 t2 : Int) (hUser : c1.UserID = c2.UserID) (hID : c1.ID ≠ c2.ID) :
    ((m.register c1 t1).1.register c2 t2).1.connections c2.UserID = some c2 ∧
    ((m.register c1 t1).1.register c2 t2).1.connByID c2.ID = some c2 ∧
    ((m.register c1 t1).1.register c2 t2).1.connByID c1.ID = none ∧
    ((m.register c1 t1).1.register c2 t2).2.2 =
      [RegEvent.sendKick c1.ID, RegEvent.closeOld c1.ID, RegEvent.deleteByID c1.ID,
       RegEvent.storeConn c2.UserID c2.ID] ∧
    ((m.register c1 t1).1.register c2 t2).2.1 =
      some (((c1.sendMessage (kickoutMessage c2.DeviceID t2)).1.close none).1) ∧
    ((c1.sendMessage (kickoutMessage c2.DeviceID t2)).1.close none).1.closed = true ∧
    (c1.closed = false → c1.SendQueue.length < c1.SendCap →
      kickoutMessage c2.DeviceID t2 ∈
        ((c1.sendMessage (kickoutMessage c2.DeviceID t2)).1.close none).1.SendQueue) := by
  have h1 : (m.register c1 t1).1.connections c2.UserID = some c1 := by
    rw [← hUser]; exact register_lookup_self m c1 t1
  refine ⟨register_lookup_self _ c2 t2, ?_, ?_,
    register_found_trace _ c2 c1 t2 h1, register_found_evicted _ c2 c1 t2 h1,
    closed_after_close _ none, ?_⟩
  · rw [register_found_byID _ c2 c1 t2 h1]
    simp
  · rw [register_found_byID _ c2 c1 t2 h1]
    simp [hID, Ne.symm hID]
  · intro hopen hroom
    simp [Connection.sendMessage, Connection.close, hopen, hroom]

/-- Witness for C1: user `alice` registers `conn-1` and then `conn-2`
into an empty registry. -/
theorem register_supersedes_old_witness :
    demoOpenConn.UserID = demoOpenConn2.UserID ∧
    demoOpenConn.ID ≠ demoOpenConn2.ID ∧
    ((ManagerState.empty.register demoOpenConn 0).1.register demoOpenConn2 1).1.connections
        demoOpenConn2.UserID = some demoOpenConn2 ∧
    ((ManagerState.empty.register demoOpenConn 0).1.register demoOpenConn2 1).1.connByID
        demoOpenConn.ID = none ∧
    ((ManagerState.empty.register demoOpenConn 0).1.register demoOpenConn2 1).2.2 =
      [RegEvent.sendKick demoOpenConn.ID, RegEvent.closeOld demoOpenConn.ID,
       RegEvent.deleteByID demoOpenConn.ID,
       RegEvent.storeConn demoOpenConn2.UserID demoOpenConn2.ID] ∧
    kickoutMessage demoOpenConn2.DeviceID 1 ∈
      ((demoOpenConn.sendMessage (kickoutMessage demoOpenConn2.DeviceID 1)).1.close
        none).1.SendQueue := by
  have h := register_supersedes_old ManagerState.empty demoOpenConn demoOpenConn2 0 1
    rfl (by decide)
  exact ⟨rfl, by decide, h.1, h.2.2.1, h.2.2.2.1, h.2.2.2.2.2.2 rfl (by decide)⟩

/-- C8: the capacity invariant fails.  At capacity, `evictOldest` starts
its scan from the current time with a strict comparison, so when every
cached entry was first seen at (or after) the current second nothing is
selected (`oldestKey` stays empty) and the insert pushes the cache past
its configured capacity: a capacity-1 deduper holding one entry first
seen at time 5 accepts a new ID at time 5 and ends up with 2 entries. -/
theorem deduper_capacity_exceeded :
    c8Deduper.size = 1 ∧
    c8Deduper.cache.length = 1 ∧
    (c8Deduper.isDuplicate "b".data 5).2 = false ∧
    ((c8Deduper.isDuplicate "b".data 5).1).cache.length = 2 := by
  refine ⟨rfl, rfl, ?_, ?_⟩ <;> decide

/-- Auxiliary: a key absent from the cache stays absent after deleting any
key. -/
theorem lookupCache_eraseKey_none (l : List (GoStr × Int)) (k k2 : GoStr)
    (h : lookupCache l k = none) : lookupCache (eraseKey l k2) k = none := by
  induction l with
  | nil => simpa [eraseKey] using h
  | cons p rest ih =>
      obtain ⟨pk, pv⟩ := p
      by_cases hk : pk = k
      · simp [lookupCache, hk] at h
      · simp only [lookupCache, hk, if_false] at h
        by_cases hk2 : pk = k2 <;> simp [eraseKey, hk2, lookupCache, hk, ih h, h]

/-- Auxiliary: appending a fresh entry makes it visible to lookup. -/
theorem lookupCache_append_self (l : List (GoStr × Int)) (k : GoStr) (v : Int)
    (h : lookupCache l k = none) : lookupCache (l ++ [(k, v)]) k = some v := by
  induction l with
  | nil => simp [lookupCache]
  | cons p rest ih =>
      obtain ⟨pk, pv⟩ := p
      by_cases hk : pk = k
      · simp [lookupCache, hk] at h
      · simp only [lookupCache, hk, if_false] at h
        simp [lookupCache, hk, ih h]

/-- Auxiliary: eviction cannot make an absent key present. -/
theorem lookupCache_evictOldest_none (d : MessageDeduper) (k : GoStr) (now : Int)
    (h : lookupCache d.cache k = none) :
    lookupCache (d.evictOldest now).cache k = none := by
  unfold MessageDeduper.evictOldest
  dsimp only
  split
  · exact h
  · exact lookupCache_eraseKey_none _ _ _ h

/-- Auxiliary: `IsDuplicate` on a cached ID reports a duplicate and leaves
the deduper untouched. -/
theorem isDuplicate_of_found (d : MessageDeduper) (k : GoStr) (now v : Int)
    (h : lookupCache d.cache k = some v) : d.isDuplicate k now = (d, true) := by
  unfold MessageDeduper.isDuplicate
  rw [h]

/-- Auxiliary: after `IsDuplicate` records a fresh ID, looking that ID up
finds its first-seen time. -/
theorem isDuplicate_insert_lookup (d : MessageDeduper) (k : GoStr) (now : Int)
    (h : lookupCache d.cache k = none) :
    lookupCache ((d.isDuplicate k now).1).cache k = some now := by
  unfold MessageDeduper.isDuplicate
  rw [h]
  by_cases hcap : d.size ≤ d.cache.length
  · simpa [hcap] using
      lookupCache_append_self _ k now (lookupCache_evictOldest_none d k now h)
  · simpa [hcap] using lookupCache_append_self _ k now h

/-- Auxiliary: the deduper returned by `handleMessage` is exactly the one
produced by running the frame's effective message ID through
`IsDuplicate`. -/
theorem handleMessage_fst (hasSaver : Bool) (uid : GoStr) (d : MessageDeduper)
    (msg : Message) (now : Int) (genID : GoStr) :
    (handleMessage hasSaver uid d msg now genID).1 =
      (d.isDuplicate (effectiveMessageID msg genID) now).1 := by
  by_cases hid : msg.MessageID = [] <;>
    simp [handleMessage, effectiveMessageID, hid]

/-- Auxiliary: a frame whose effective message ID the deduper has already
seen produces no effects at all. -/
theorem handleMessage_dup_dropped (hasSaver : Bool) (uid : GoStr) (d : MessageDeduper)
    (msg : Message) (now : Int) (genID : GoStr)
    (h : (d.isDuplicate (effectiveMessageID msg genID) now).2 = true) :
    (handleMessage hasSaver uid d msg now genID).2 = [] := by
  by_cases hid : msg.MessageID = [] <;>
    simp_all [handleMessage, effectiveMessageID, hid]

/-- Auxiliary: effect trace of a fresh single-chat frame with a configured
message saver: exactly one persistence call and one downstream dispatch. -/
theorem handleMessage_single_chat_counts (uid : GoStr) (d : MessageDeduper)
    (msg : Message) (now : Int) (genID : GoStr)
    (hfresh : lookupCache d.cache (effectiveMessageID msg genID) = none)
    (htype : msg.type = MsgSingleChat) :
    countPersist (handleMessage true uid d msg now genID).2 = 1 ∧
    countDispatch (handleMessage true uid d msg now genID).2 = 1 := by
  have hdup : (d.isDuplicate (effectiveMessageID msg genID) now).2 = false := by
    unfold MessageDeduper.isDuplicate
    rw [hfresh]
  by_cases hid : msg.MessageID = [] <;>
    simp_all [handleMessage, effectiveMessageID, hid, dispatchByType, htype,
      MsgSingleChat, MsgHeartbeat, MsgText, handleSingleChat, countPersist,
      countDispatch, Effect.isPersist, Effect.isDispatch, List.filter]

/-- C2: two frames with the same (non-empty) message ID processed in
sequence: the second frame, whose ID the deduper now holds, is dropped
silently with no effects, so across the two frames there is exactly one
persistence call and exactly one downstream dispatch (stated for a fresh
single-chat frame with a configured message saver). -/
theorem dedup_second_frame_once (d : MessageDeduper) (uid : GoStr) (m1 m2 : Message)
    (t1 t2 : Int) (g1 g2 : GoStr)
    (hid : m2.MessageID = m1.MessageID) (hne : m1.MessageID ≠ [])
    (hfresh : lookupCache d.cache m1.MessageID = none)
    (htype : m1.type = MsgSingleChat) :
    (handleMessage true uid (handleMessage true uid d m1 t1 g1).1 m2 t2 g2).2 = [] ∧
    countPersist ((handleMessage true uid d m1 t1 g1).2 ++
      (handleMessage true uid (handleMessage true uid d m1 t1 g1).1 m2 t2 g2).2) = 1 ∧
    countDispatch ((handleMessage true uid d m1 t1 g1).2 ++
      (handleMessage true uid (handleMessage true uid d m1 t1 g1).1 m2 t2 g2).2) = 1 := by
  have he1 : effectiveMessageID m1 g1 = m1.MessageID := by
    simp [effectiveMessageID, hne]
  have he2 : effectiveMessageID m2 g2 = m1.MessageID := by
    simp [effectiveMessageID, hid, hne]
  have hlook : lookupCache ((handleMessage true uid d m1 t1 g1).1).cache
      m1.MessageID = some t1 := by
    rw [handleMessage_fst, he1]
    exact isDuplicate_insert_lookup d _ t1 hfresh
  have hdrop : (handleMessage true uid (handleMessage true uid d m1 t1 g1).1
      m2 t2 g2).2 = [] := by
    refine handleMessage_dup_dropped _ _ _ _ _ _ ?_
    rw [he2, isDuplicate_of_found _ _ t2 t1 hlook]
  obtain ⟨hp, hd2⟩ := handleMessage_single_chat_counts uid d m1 t1 g1
    (by rw [he1]; exact hfresh) htype
  exact ⟨hdrop, by simpa [hdrop, countPersist] using hp,
    by simpa [hdrop, countDispatch] using hd2⟩

/-- Witness for C2: the same chat message delivered twice to a fresh
deduper. -/
theorem dedup_second_frame_once_witness :
    demoMsg.MessageID = demoMsg.MessageID ∧
    demoMsg.MessageID ≠ [] ∧
    lookupCache demoDeduper.cache demoMsg.MessageID = none ∧
    demoMsg.type = MsgSingleChat ∧
    ((handleMessage true "alice".data
        (handleMessage true "alice".data demoDeduper demoMsg 10 "g1".data).1
        demoMsg 11 "g2".data).2 = [] ∧
     countPersist ((handleMessage true "alice".data demoDeduper demoMsg 10 "g1".data).2 ++
       (handleMessage true "alice".data
         (handleMessage true "alice".data demoDeduper demoMsg 10 "g1".data).1
         demoMsg 11 "g2".data).2) = 1) :=
  ⟨rfl, by decide, rfl, rfl,
   (dedup_second_frame_once demoDeduper "alice".data demoMsg demoMsg 10 11
      "g1".data "g2".data rfl (by decide) rfl rfl).1,
   (dedup_second_frame_once demoDeduper "alice".data demoMsg demoMsg 10 11
      "g1".data "g2".data rfl (by decide) rfl rfl).2.1⟩

/-- Auxiliary: every message a per-type handler persists or dispatches is
the handler's input message, possibly with a re-stamped conversation ID:
sender, timestamp and message ID are preserved. -/
theorem dispatchByType_payload (hasSaver : Bool) (uid : GoStr) (m2 : Message)
    (now : Int) :
    ∀ e ∈ dispatchByType hasSaver uid m2 now, ∀ mm ∈ e.payload,
      mm.From = m2.From ∧ mm.Timestamp = m2.Timestamp ∧
      mm.MessageID = m2.MessageID := by
  intro e he mm hmm
  unfold dispatchByType at he
  split at he
  · simp [handleHeartbeat] at he
    subst he
    simp [Effect.payload] at hmm
  · split at he
    · by_cases hs : hasSaver
      · simp [handleSingleChat, hs] at he
        rcases he with rfl | rfl | rfl
        · simp only [Effect.payload, Option.mem_def, Option.some.injEq] at hmm
          subst hmm
          exact ⟨rfl, rfl, rfl⟩
        · simp [Effect.payload] at hmm
        · simp only [Effect.payload, Option.mem_def, Option.some.injEq] at hmm
          subst hmm
          exact ⟨rfl, rfl, rfl⟩
      · simp [handleSingleChat, hs] at he
        rcases he with rfl | rfl
        · simp [Effect.payload] at hmm
        · simp only [Effect.payload, Option.mem_def, Option.some.injEq] at hmm
          subst hmm
          exact ⟨rfl, rfl, rfl⟩
    · split at he
      · by_cases hs : hasSaver
        · simp [handleGroupChat, hs] at he
          rcases he with rfl | rfl | rfl
          · simp only [Effect.payload, Option.mem_def, Option.some.injEq] at hmm
            subst hmm
            exact ⟨rfl, rfl, rfl⟩
          · simp [Effect.payload] at hmm
          · simp only [Effect.payload, Option.mem_def, Option.some.injEq] at hmm
            subst hmm
            exact ⟨rfl, rfl, rfl⟩
        · simp [handleGroupChat, hs] at he
          rcases he with rfl | rfl
          · simp [Effect.payload] at hmm
          · simp only [Effect.payload, Option.mem_def, Option.some.injEq] at hmm
            subst hmm
            exact ⟨rfl, rfl, rfl⟩
      · split at he
        · simp at he
        · split at he
          · unfold handleReadReceipt at he
            split at he <;> try simp at he
            split at he <;> try simp at he
            split at he <;> try simp at he
            all_goals
              obtain ⟨-, rfl⟩ := he
              simp only [Effect.payload, Option.mem_def, Option.some.injEq] at hmm
              subst hmm
              exact ⟨rfl, rfl, rfl⟩
          · split at he
            · unfold handleTyping at he
              split at he <;> try simp at he
              subst he
              simp only [Effect.payload, Option.mem_def, Option.some.injEq] at hmm
              subst hmm
              exact ⟨rfl, rfl, rfl⟩
            · simp at he

/-- C10: the message a frame is deduplicated, persisted and dispatched as
carries the connection's authenticated user ID as sender and the
server-assigned timestamp, whatever the client put in the frame; a frame
without a message ID is assigned the generated one before deduplication,
and the deduper is keyed on exactly that effective ID. -/
theorem handleMessage_normalizes (hasSaver : Bool) (uid : GoStr) (d : MessageDeduper)
    (msg : Message) (now : Int) (genID : GoStr) :
    ((handleMessage hasSaver uid d msg now genID).1 =
      (d.isDuplicate (effectiveMessageID msg genID) now).1) ∧
    (msg.MessageID = [] → effectiveMessageID msg genID = genID) ∧
    ∀ e ∈ (handleMessage hasSaver uid d msg now genID).2, ∀ mm ∈ e.payload,
      mm.From = uid ∧ mm.Timestamp = now ∧
      mm.MessageID = effectiveMessageID msg genID := by
  refine ⟨handleMessage_fst hasSaver uid d msg now genID,
    fun h => by simp [effectiveMessageID, h], ?_⟩
  intro e he mm hmm
  by_cases hid : msg.MessageID = [] <;>
  · simp only [handleMessage, effectiveMessageID, hid, if_true, if_false, ite_true,
      ite_false] at he ⊢
    rcases hif : (MessageDeduper.isDuplicate d _ now).2 with _ | _ <;>
      rw [hif] at he
    · simpa using dispatchByType_payload hasSaver uid _ now e (by simpa using he) mm hmm
    · simp at he

/-- Witness for C10: the persisted copy of a concrete client frame carries
the authenticated sender and server timestamp. -/
theorem handleMessage_normalizes_witness :
    Effect.saveMessage demoNormalizedMsg ∈
      (handleMessage true "alice".data demoDeduper demoMsg 10 "gen".data).2 ∧
    demoNormalizedMsg ∈ (Effect.saveMessage demoNormalizedMsg).payload ∧
    (demoNormalizedMsg.From = "alice".data ∧ demoNormalizedMsg.Timestamp = 10 ∧
     demoNormalizedMsg.MessageID = effectiveMessageID demoMsg "gen".data) :=
  ⟨by decide, by decide,
   (handleMessage_normalizes true "alice".data demoDeduper demoMsg 10 "gen".data).2.2
     (Effect.saveMessage demoNormalizedMsg) (by decide) demoNormalizedMsg (by decide)⟩

/-- Auxiliary: a string starts with itself as prefix. -/
theorem goHasPre_append (p s : GoStr) : goHasPre p (p ++ s) = true := by
  induction p with
  | nil => rfl
  | cons c cs ih => simp [goHasPre, ih]

/-- Auxiliary: scanning a reversed tail with no underscore, the split
lands on the separator. -/
theorem splitLastUnderscoreAux_clean (bs : GoStr) :
    ∀ acc r : GoStr, (∀ c ∈ bs, c ≠ '_') →
      splitLastUnderscoreAux (bs ++ '_' :: r) acc = some (r.reverse, bs.reverse ++ acc) := by
  induction bs with
  | nil => intro acc r _; simp [splitLastUnderscoreAux]
  | cons c cs ih =>
      intro acc r h
      have hc : c ≠ '_' := h c (List.mem_cons_self c cs)
      simp only [List.cons_append, splitLastUnderscoreAux, hc, if_false,
        List.reverse_cons, List.append_assoc, List.singleton_append]
      exact ih (c :: acc) r fun x hx => h x (List.mem_cons_of_mem c hx)

/-- Auxiliary: splitting `a_b` at the last underscore recovers `(a, b)`
when `b` is underscore-free. -/
theorem splitLastUnderscore_eq (a b : GoStr) (hb : ∀ c ∈ b, c ≠ '_') :
    splitLastUnderscore (a ++ '_' :: b) = some (a, b) := by
  unfold splitLastUnderscore
  have hrev : (a ++ '_' :: b).reverse = b.reverse ++ '_' :: a.reverse := by
    simp [List.reverse_append]
  rw [hrev, splitLastUnderscoreAux_clean b.reverse [] a.reverse
    (fun c hc => hb c (List.mem_reverse.mp hc))]
  simp

/-- C3 counterexample: a read receipt whose conversation ID was produced
by the single-chat encoder (`"single:a:b"`) does not match the handler's
`"single_"` prefix check, so the handler forwards nothing: no dispatch to
the peer happens. -/
theorem readReceipt_encoder_id_dropped :
    demoEncoderReceipt.Content =
      MsgContent.readReceipt (GetSingleChatConversationID "a".data "b".data) 3 ∧
    GetSingleChatConversationID "a".data "b".data = "single:a:b".data ∧
    handleReadReceipt "a".data demoEncoderReceipt = [] := by
  refine ⟨rfl, by decide, by decide⟩

/-- C3 as amended: the read-receipt handler decodes the peer and forwards
the receipt to exactly that peer only for conversation IDs in its own
underscore convention `single_<user1>_<user2>` (splitting at the last
underscore): the target is `user2` when the reader is `user1`, else
`user1`.  IDs produced by the colon-convention encoder
`GetSingleChatConversationID` are not recognized and the receipt is
dropped. -/
theorem readReceipt_underscore_forwards (reader user1 user2 seqv : _) (msg : Message)
    (hb : ∀ c ∈ user2, c ≠ '_')
    (hc : msg.Content = .readReceipt ("single_".data ++ user1 ++ '_' :: user2) seqv) :
    handleReadReceipt reader msg =
      [Effect.dispatchToUsers [if user1 = reader then user2 else user1] msg] := by
  have hdrop : List.drop 7 ("single_".data ++ (user1 ++ '_' :: user2)) =
      user1 ++ '_' :: user2 := by
    rw [show (7 : Nat) = ("single_".data).length from rfl, List.drop_left]
  have hpre : goHasPre "single_".data ("single_".data ++ (user1 ++ '_' :: user2)) = true :=
    goHasPre_append _ _
  unfold handleReadReceipt
  rw [hc]
  simp [hdrop, splitLastUnderscore_eq user1 user2 hb]
  simpa using hpre

/-- Witness for the amended C3: reader `b` sends a read receipt for
`single_a_b`; the handler forwards it to the peer `a`. -/
theorem readReceipt_underscore_forwards_witness :
    (∀ c ∈ "b".data, c ≠ '_') ∧
    demoUnderscoreReceipt.Content =
      MsgContent.readReceipt ("single_".data ++ "a".data ++ '_' :: "b".data) 3 ∧
    handleReadReceipt "b".data demoUnderscoreReceipt =
      [Effect.dispatchToUsers
        [if "a".data = "b".data then "b".data else "a".data] demoUnderscoreReceipt] :=
  ⟨by decide, by decide,
   readReceipt_underscore_forwards "b".data "a".data "b".data 3 demoUnderscoreReceipt
     (by decide) (by decide)⟩

/-- Auxiliary: a target with no local connection and no online-status
record goes down the offline-persistence path, and nothing else. -/
theorem dispatchOne_offline (d : DispatcherState) (uid : GoStr)
    (hsaver : d.hasOfflineSaver = true)
    (hlocal : d.localConns uid = none)
    (hstore : d.onlineStore uid = none) :
    dispatchOne d uid = [DispatchEffect.saveOffline uid] := by
  simp [dispatchOne, DispatcherState.pushToLocalUser, hlocal,
    DispatcherState.getUserNode, hstore, hsaver]

/-- C5: dispatching to K target users, none locally connected and none
present in the online-status store, performs exactly one
offline-persistence call per target — K in total — and a missing
online-status record is read as "offline" (`("", nil)` from
`GetUserNode`), not as an error. -/
theorem dispatch_offline_fallback (d : DispatcherState) (userIDs : List GoStr)
    (hsaver : d.hasOfflineSaver = true)
    (hnodup : userIDs.Nodup)
    (hlocal : ∀ uid ∈ userIDs, d.localConns uid = none)
    (hstore : ∀ uid ∈ userIDs, d.onlineStore uid = none) :
    DispatchToUsers d userIDs = userIDs.map DispatchEffect.saveOffline ∧
    (DispatchToUsers d userIDs).length = userIDs.length ∧
    ∀ uid ∈ userIDs, d.getUserNode uid = ([], none) := by
  have hmain : DispatchToUsers d userIDs = userIDs.map DispatchEffect.saveOffline := by
    unfold DispatchToUsers
    split
    · simp_all
    · induction userIDs with
      | nil => simp
      | cons u rest ih =>
          rw [List.flatMap_cons, List.map_cons,
            dispatchOne_offline d u hsaver (hlocal u (List.mem_cons_self u rest))
              (hstore u (List.mem_cons_self u rest))]
          by_cases hrest : rest = []
          · simp [hrest]
          · have := ih (List.Nodup.of_cons hnodup)
              (fun x hx => hlocal x (List.mem_cons_of_mem u hx))
              (fun x hx => hstore x (List.mem_cons_of_mem u hx)) hrest
            simp only [List.singleton_append, List.cons.injEq, true_and]
            simpa [DispatchToUsers, hrest] using this
  refine ⟨hmain, by rw [hmain, List.length_map], ?_⟩
  intro uid hin
  simp [DispatcherState.getUserNode, hstore uid hin]

/-- Witness for C5: two users, neither locally connected nor present in
the online store, produce exactly two offline-persistence calls. -/
theorem dispatch_offline_fallback_witness :
    demoDispatcher.hasOfflineSaver = true ∧
    ("u1".data :: "u2".data :: []).Nodup ∧
    (∀ uid ∈ ("u1".data :: "u2".data :: []), demoDispatcher.localConns uid = none) ∧
    (∀ uid ∈ ("u1".data :: "u2".data :: []), demoDispatcher.onlineStore uid = none) ∧
    DispatchToUsers demoDispatcher ("u1".data :: "u2".data :: []) =
      [DispatchEffect.saveOffline "u1".data, DispatchEffect.saveOffline "u2".data] ∧
    (DispatchToUsers demoDispatcher ("u1".data :: "u2".data :: [])).length = 2 :=
  ⟨rfl, by decide, fun _ _ => rfl, fun _ _ => rfl,
   (dispatch_offline_fallback demoDispatcher ("u1".data :: "u2".data :: [])
      rfl (by decide) (fun _ _ => rfl) (fun _ _ => rfl)).1,
   (dispatch_offline_fallback demoDispatcher ("u1".data :: "u2".data :: [])
      rfl (by decide) (fun _ _ => rfl) (fun _ _ => rfl)).2.1⟩
